import Mathlib

/-!
Verification of the EWASTE repository core model.

Two components are embedded from the source:
* `src/biorecovery_app.py` — the bioleaching response model (`gauss_factor`,
  `monod_factor`, `recovery_fraction`, and the `organisms` parameter table).
  Python floats are modelled as real numbers (exact arithmetic); a Python
  `ZeroDivisionError` is modelled as `Option.none`.
* `src/EWASTE.py` — the per-method cost/yield rollup (`evaluate_method`).
  All arithmetic there is rational, so it is embedded over `ℚ`; the `np.nan`
  sentinel used for degenerate divisions is modelled as `Option.none`.
-/

namespace EWaste

/-! ### Bioleaching response model (src/biorecovery_app.py) -/

/-- Embeds `gauss_factor(x, x_opt, sigma)`: Gaussian-style response factor.
The source returns `0.0` when `sigma <= 0`, otherwise
`exp(-0.5 * ((x - x_opt) / sigma) ** 2)`. -/
noncomputable def gauss_factor (x x_opt sigma : ℝ) : ℝ :=
  if sigma ≤ 0 then 0.0
  else Real.exp (-0.5 * ((x - x_opt) / sigma) ^ 2)

/-- Embeds `monod_factor(O, K)`: Monod saturation for oxygen. The source
clamps a negative `O` to `0.0` and then returns `O / (K + O)`; a zero
denominator raises `ZeroDivisionError` in Python, modelled here as `none`. -/
noncomputable def monod_factor (O K : ℝ) : Option ℝ :=
  let O' := if O < 0 then 0.0 else O
  if K + O' = 0 then none else some (O' / (K + O'))

/-- Per-organism parameters, matching one entry of the `organisms` dict. -/
structure OrganismParams where
  pH_opt : ℝ
  pH_sigma : ℝ
  T_opt : ℝ
  T_sigma : ℝ
  K_O : ℝ
  recovery_max : String → Option ℝ

/-- The closed enumeration of the three organisms in the table. -/
inductive OrganismName
  | ferrooxidans
  | leptospirillum
  | thiooxidans
deriving DecidableEq

/-- Embeds the `organisms` dict of literature-based parameters. A Python
dict lookup `recovery_max[metal]` that may miss is a `String → Option ℝ`. -/
noncomputable def organisms : OrganismName → OrganismParams
  | .ferrooxidans =>
      { pH_opt := 2.0, pH_sigma := 0.7, T_opt := 30.0, T_sigma := 6.0, K_O := 0.5,
        recovery_max := fun m =>
          if m = "Cu" then some 0.85 else if m = "Au" then some 0.50
          else if m = "Pd" then some 0.35 else none }
  | .leptospirillum =>
      { pH_opt := 1.5, pH_sigma := 0.6, T_opt := 40.0, T_sigma := 6.0, K_O := 0.6,
        recovery_max := fun m =>
          if m = "Cu" then some 0.80 else if m = "Au" then some 0.40
          else if m = "Pd" then some 0.30 else none }
  | .thiooxidans =>
      { pH_opt := 1.8, pH_sigma := 0.6, T_opt := 28.0, T_sigma := 6.0, K_O := 0.6,
        recovery_max := fun m =>
          if m = "Cu" then some 0.82 else if m = "Au" then some 0.35
          else if m = "Pd" then some 0.28 else none }

/-- Embeds `recovery_fraction(org_name, pH, T, O, metal)`: combination
rule (a), `base * f_pH * f_T * (0.6 + 0.4 * f_O)`, clamped to `[0,1]` by
`max(0.0, min(1.0, combined))`; the metal lookup defaults to `0.0`. -/
noncomputable def recovery_fraction (org_name : OrganismName) (pH T O : ℝ)
    (metal : String) : Option ℝ :=
  let params := organisms org_name
  let f_pH := gauss_factor pH params.pH_opt params.pH_sigma
  let f_T := gauss_factor T params.T_opt params.T_sigma
  (monod_factor O params.K_O).map fun f_O =>
    let base := (params.recovery_max metal).getD 0.0
    let combined := base * f_pH * f_T * (0.6 + 0.4 * f_O)
    max 0.0 (min 1.0 combined)

/-- Modelled from the spec: combination rule (b), the
weighted-sum-with-exponent variant, which the specification records as a
design observed across the source's evolution but which is absent from the
files under src/. Following the spec's words:
`synergy = min(1, (0.5*f_pH + 0.3*f_T + 0.2*f_O)^1.2)`;
`recovery = max_recovery[metal] * synergy`, with the final result clamped
to `[0,1]` like rule (a). -/
noncomputable def recovery_fraction_b (org_name : OrganismName) (pH T O : ℝ)
    (metal : String) : Option ℝ :=
  let params := organisms org_name
  let f_pH := gauss_factor pH params.pH_opt params.pH_sigma
  let f_T := gauss_factor T params.T_opt params.T_sigma
  (monod_factor O params.K_O).map fun f_O =>
    let base := (params.recovery_max metal).getD 0.0
    let synergy := min 1.0 ((0.5 * f_pH + 0.3 * f_T + 0.2 * f_O) ^ (1.2 : ℝ))
    max 0.0 (min 1.0 (base * synergy))

/-! ### Basic facts about the response primitives -/

lemma gauss_factor_nonneg (x x_opt sigma : ℝ) : 0 ≤ gauss_factor x x_opt sigma := by
  unfold gauss_factor
  split
  · norm_num
  · exact (Real.exp_pos _).le

lemma gauss_factor_le_one (x x_opt sigma : ℝ) : gauss_factor x x_opt sigma ≤ 1 := by
  unfold gauss_factor
  split
  · norm_num
  · rw [Real.exp_le_one_iff]
    nlinarith [sq_nonneg ((x - x_opt) / sigma)]

lemma gauss_factor_pos (x x_opt sigma : ℝ) (hs : 0 < sigma) :
    0 < gauss_factor x x_opt sigma := by
  unfold gauss_factor
  rw [if_neg (by linarith)]
  exact Real.exp_pos _

lemma gauss_factor_at_opt (x_opt sigma : ℝ) (hs : 0 < sigma) :
    gauss_factor x_opt x_opt sigma = 1 := by
  unfold gauss_factor
  rw [if_neg (by linarith)]
  simp

lemma monod_factor_of_pos (O K : ℝ) (hK : 0 < K) :
    monod_factor O K =
      some ((if O < 0 then 0.0 else O) / (K + (if O < 0 then 0.0 else O))) := by
  unfold monod_factor
  have hO' : (0:ℝ) ≤ if O < 0 then 0.0 else O := by
    split <;> norm_num
    linarith
  rw [if_neg (by positivity)]

lemma monod_val_nonneg (O K : ℝ) (hK : 0 < K) :
    0 ≤ (if O < 0 then (0.0:ℝ) else O) / (K + (if O < 0 then 0.0 else O)) := by
  have hO' : (0:ℝ) ≤ if O < 0 then 0.0 else O := by
    split <;> norm_num
    linarith
  positivity

lemma monod_val_lt_one (O K : ℝ) (hK : 0 < K) :
    (if O < 0 then (0.0:ℝ) else O) / (K + (if O < 0 then 0.0 else O)) < 1 := by
  have hO' : (0:ℝ) ≤ if O < 0 then 0.0 else O := by
    split <;> norm_num
    linarith
  rw [div_lt_one (by linarith)]
  linarith

lemma clamp_bounds (base c : ℝ) (hb0 : 0 ≤ base) (hcb : c ≤ base) :
    0 ≤ max 0.0 (min 1.0 c) ∧ max 0.0 (min 1.0 c) ≤ base ∧
      max 0.0 (min 1.0 c) ≤ 1 := by
  have h00 : (0.0:ℝ) = 0 := by norm_num
  have h11 : (1.0:ℝ) = 1 := by norm_num
  rw [h00, h11]
  exact ⟨le_max_left _ _, max_le hb0 ((min_le_right _ _).trans hcb),
    max_le (by norm_num) (min_le_left _ _)⟩

lemma K_O_pos (org : OrganismName) : 0 < (organisms org).K_O := by
  cases org <;> norm_num [organisms]

lemma sigma_pos (org : OrganismName) :
    0 < (organisms org).pH_sigma ∧ 0 < (organisms org).T_sigma := by
  cases org <;> norm_num [organisms]

lemma base_mem (org : OrganismName) (metal : String) :
    0 ≤ ((organisms org).recovery_max metal).getD 0.0 ∧
      ((organisms org).recovery_max metal).getD 0.0 ≤ 1 := by
  cases org <;> simp only [organisms] <;> split_ifs <;> norm_num

lemma recovery_fraction_eq (org : OrganismName) (pH T O : ℝ) (metal : String) :
    recovery_fraction org pH T O metal
      = some (max 0.0 (min 1.0 (((organisms org).recovery_max metal).getD 0.0
          * gauss_factor pH (organisms org).pH_opt (organisms org).pH_sigma
          * gauss_factor T (organisms org).T_opt (organisms org).T_sigma
          * (0.6 + 0.4 * ((if O < 0 then (0.0:ℝ) else O) /
              ((organisms org).K_O + (if O < 0 then 0.0 else O))))))) := by
  simp only [recovery_fraction, monod_factor_of_pos O (organisms org).K_O (K_O_pos org),
    Option.map_some']

lemma recovery_fraction_b_eq (org : OrganismName) (pH T O : ℝ) (metal : String) :
    recovery_fraction_b org pH T O metal
      = some (max 0.0 (min 1.0 (((organisms org).recovery_max metal).getD 0.0
          * min 1.0 ((0.5 * gauss_factor pH (organisms org).pH_opt (organisms org).pH_sigma
              + 0.3 * gauss_factor T (organisms org).T_opt (organisms org).T_sigma
              + 0.2 * ((if O < 0 then (0.0:ℝ) else O) /
                  ((organisms org).K_O + (if O < 0 then 0.0 else O)))) ^ (1.2:ℝ))))) := by
  simp only [recovery_fraction_b, monod_factor_of_pos O (organisms org).K_O (K_O_pos org),
    Option.map_some']

lemma ruleA_mem (base fp ft fo : ℝ) (hb0 : 0 ≤ base) (hb1 : base ≤ 1)
    (hp0 : 0 ≤ fp) (hp1 : fp ≤ 1) (ht0 : 0 ≤ ft) (ht1 : ft ≤ 1)
    (hfo0 : 0 ≤ fo) (hfo1 : fo ≤ 1) :
    0 ≤ base * fp * ft * (0.6 + 0.4 * fo) ∧
      base * fp * ft * (0.6 + 0.4 * fo) ≤ base ∧
      max 0.0 (min 1.0 (base * fp * ft * (0.6 + 0.4 * fo)))
        = base * fp * ft * (0.6 + 0.4 * fo) := by
  have hw0 : (0:ℝ) ≤ 0.6 + 0.4 * fo := by linarith
  have hw1 : 0.6 + 0.4 * fo ≤ 1 := by linarith
  have hc0 : 0 ≤ base * fp * ft * (0.6 + 0.4 * fo) :=
    mul_nonneg (mul_nonneg (mul_nonneg hb0 hp0) ht0) hw0
  have hkey : fp * ft * (0.6 + 0.4 * fo) ≤ 1 :=
    mul_le_one (mul_le_one hp1 ht0 ht1) hw0 hw1
  have hcb : base * fp * ft * (0.6 + 0.4 * fo) ≤ base := by
    have he : base * fp * ft * (0.6 + 0.4 * fo)
        = base * (fp * ft * (0.6 + 0.4 * fo)) := by ring
    rw [he]
    exact mul_le_of_le_one_right hb0 hkey
  refine ⟨hc0, hcb, ?_⟩
  rw [min_eq_right (by linarith), max_eq_right (by linarith)]

lemma ruleB_mem (base s : ℝ) (hb0 : 0 ≤ base) (hb1 : base ≤ 1) (hs0 : 0 ≤ s) :
    0 ≤ base * min 1.0 (s ^ (1.2:ℝ)) ∧
      base * min 1.0 (s ^ (1.2:ℝ)) ≤ base ∧
      max 0.0 (min 1.0 (base * min 1.0 (s ^ (1.2:ℝ))))
        = base * min 1.0 (s ^ (1.2:ℝ)) := by
  have hsyn0 : 0 ≤ min 1.0 (s ^ (1.2:ℝ)) :=
    le_min (by norm_num) (Real.rpow_nonneg hs0 _)
  have hsyn1 : min 1.0 (s ^ (1.2:ℝ)) ≤ 1 := (min_le_left _ _).trans (by norm_num)
  have hc0 : 0 ≤ base * min 1.0 (s ^ (1.2:ℝ)) := mul_nonneg hb0 hsyn0
  have hcb : base * min 1.0 (s ^ (1.2:ℝ)) ≤ base := mul_le_of_le_one_right hb0 hsyn1
  refine ⟨hc0, hcb, ?_⟩
  rw [min_eq_right (by linarith), max_eq_right (by linarith)]

/-! ### Claims about the bioleaching recovery model -/

/-- C1: for every organism, every metal and every operating point, both
combination rules produce a recovery fraction within
`[0, max_recovery[metal]]` (the lookup defaulting to `0` for an unknown
metal), and the final clamp keeps the result within `[0, 1]`. -/
theorem recovery_fraction_bounds (org : OrganismName) (pH T O : ℝ)
    (metal : String) :
    (∃ r, recovery_fraction org pH T O metal = some r ∧ 0 ≤ r ∧
        r ≤ ((organisms org).recovery_max metal).getD 0.0 ∧ r ≤ 1) ∧
    (∃ r, recovery_fraction_b org pH T O metal = some r ∧ 0 ≤ r ∧
        r ≤ ((organisms org).recovery_max metal).getD 0.0 ∧ r ≤ 1) := by
  obtain ⟨hb0, hb1⟩ := base_mem org metal
  have hK := K_O_pos org
  have hp0 := gauss_factor_nonneg pH (organisms org).pH_opt (organisms org).pH_sigma
  have hp1 := gauss_factor_le_one pH (organisms org).pH_opt (organisms org).pH_sigma
  have ht0 := gauss_factor_nonneg T (organisms org).T_opt (organisms org).T_sigma
  have ht1 := gauss_factor_le_one T (organisms org).T_opt (organisms org).T_sigma
  have hfo0 := monod_val_nonneg O (organisms org).K_O hK
  have hfo1 := (monod_val_lt_one O (organisms org).K_O hK).le
  constructor
  · obtain ⟨hc0, hcb, hmax⟩ :=
      ruleA_mem _ _ _ _ hb0 hb1 hp0 hp1 ht0 ht1 hfo0 hfo1
    refine ⟨_, recovery_fraction_eq org pH T O metal, ?_, ?_, ?_⟩
    · rw [hmax]
      exact hc0
    · rw [hmax]
      exact hcb
    · rw [hmax]
      linarith
  · obtain ⟨hc0, hcb, hmax⟩ :=
      ruleB_mem (((organisms org).recovery_max metal).getD 0.0)
        (0.5 * gauss_factor pH (organisms org).pH_opt (organisms org).pH_sigma
          + 0.3 * gauss_factor T (organisms org).T_opt (organisms org).T_sigma
          + 0.2 * ((if O < 0 then (0.0:ℝ) else O) /
              ((organisms org).K_O + (if O < 0 then 0.0 else O))))
        hb0 hb1 (by linarith)
    refine ⟨_, recovery_fraction_b_eq org pH T O metal, ?_, ?_, ?_⟩
    · rw [hmax]
      exact hc0
    · rw [hmax]
      exact hcb
    · rw [hmax]
      linarith

/-- C7: for A. ferrooxidans (pH_opt 2.0, pH_sigma 0.7, T_opt 30, T_sigma
6.0, K_O 0.5, max Cu recovery 0.85) at the operating point pH 2.0, T 30,
O 3.0 under rule (a): f_pH = 1, f_T = 1, f_O = 3/3.5, and the predicted Cu
recovery equals 0.85 × 1 × 1 × (0.6 + 0.4 × 3/3.5) (≈ 0.801). -/
theorem ferrooxidans_scenario :
    gauss_factor 2.0 2.0 0.7 = 1 ∧
    gauss_factor 30.0 30.0 6.0 = 1 ∧
    monod_factor 3.0 0.5 = some (3.0 / 3.5) ∧
    recovery_fraction .ferrooxidans 2.0 30.0 3.0 "Cu"
      = some (0.85 * 1 * 1 * (0.6 + 0.4 * (3.0 / 3.5))) := by
  have h1 : gauss_factor 2.0 2.0 0.7 = 1 := gauss_factor_at_opt 2.0 0.7 (by norm_num)
  have h2 : gauss_factor 30.0 30.0 6.0 = 1 := gauss_factor_at_opt 30.0 6.0 (by norm_num)
  refine ⟨h1, h2, ?_, ?_⟩
  · rw [monod_factor_of_pos 3.0 0.5 (by norm_num)]
    norm_num
  · have h1' : gauss_factor 2 2 (7 / 10) = 1 :=
      gauss_factor_at_opt 2 (7 / 10) (by norm_num)
    have h2' : gauss_factor 30 30 6 = 1 := gauss_factor_at_opt 30 6 (by norm_num)
    rw [recovery_fraction_eq]
    simp only [organisms]
    norm_num [h1', h2']

/-- C8: for every organism and every operating point, a metal absent from
the organism's maximum-recovery mapping yields recovery exactly `0` (the
explicit `.get(metal, 0.0)` default) and the computation still succeeds. -/
theorem missing_metal_zero_recovery (org : OrganismName) (pH T O : ℝ)
    (metal : String) (h : (organisms org).recovery_max metal = none) :
    recovery_fraction org pH T O metal = some 0 := by
  rw [recovery_fraction_eq, h]
  norm_num

/-- Witness for C8: A. ferrooxidans has no recorded recovery for zinc, so
requesting `"Zn"` yields recovery `0`. -/
theorem missing_metal_zero_recovery_witness :
    recovery_fraction .ferrooxidans 2.0 30.0 3.0 "Zn" = some 0 :=
  missing_metal_zero_recovery .ferrooxidans 2.0 30.0 3.0 "Zn" (by
    simp only [organisms]
    rw [if_neg (by decide), if_neg (by decide), if_neg (by decide)])

/-- C9: under rule (a) the oxygen modulation factor `0.6 + 0.4 · f_O` is
bounded below by 0.6, so the predicted recovery is at least
0.6 × max_recovery[metal] × f_pH × f_T; since every organism in the table
has strictly positive spreads, the recovery is strictly positive whenever
max_recovery[metal] is, even at zero dissolved oxygen. -/
theorem recovery_fraction_lower_bound (org : OrganismName) (pH T O : ℝ)
    (metal : String) :
    ∃ r, recovery_fraction org pH T O metal = some r ∧
      0.6 * (((organisms org).recovery_max metal).getD 0.0)
          * gauss_factor pH (organisms org).pH_opt (organisms org).pH_sigma
          * gauss_factor T (organisms org).T_opt (organisms org).T_sigma ≤ r ∧
      (0 < ((organisms org).recovery_max metal).getD 0.0 → 0 < r) := by
  obtain ⟨hb0, hb1⟩ := base_mem org metal
  obtain ⟨hsp, hst⟩ := sigma_pos org
  have hK := K_O_pos org
  have hp0 := gauss_factor_nonneg pH (organisms org).pH_opt (organisms org).pH_sigma
  have hp1 := gauss_factor_le_one pH (organisms org).pH_opt (organisms org).pH_sigma
  have hpp := gauss_factor_pos pH (organisms org).pH_opt (organisms org).pH_sigma hsp
  have ht0 := gauss_factor_nonneg T (organisms org).T_opt (organisms org).T_sigma
  have ht1 := gauss_factor_le_one T (organisms org).T_opt (organisms org).T_sigma
  have htp := gauss_factor_pos T (organisms org).T_opt (organisms org).T_sigma hst
  have hfo0 := monod_val_nonneg O (organisms org).K_O hK
  have hfo1 := (monod_val_lt_one O (organisms org).K_O hK).le
  obtain ⟨hc0, hcb, hmax⟩ :=
    ruleA_mem _ _ _ _ hb0 hb1 hp0 hp1 ht0 ht1 hfo0 hfo1
  refine ⟨_, recovery_fraction_eq org pH T O metal, ?_, ?_⟩
  · rw [hmax]
    nlinarith [mul_nonneg (mul_nonneg (mul_nonneg hb0 hp0) ht0) hfo0]
  · intro hbpos
    rw [hmax]
    have hwpos : (0:ℝ) < 0.6 + 0.4 * ((if O < 0 then (0.0:ℝ) else O) /
        ((organisms org).K_O + (if O < 0 then 0.0 else O))) := by linarith
    exact mul_pos (mul_pos (mul_pos hbpos hpp) htp) hwpos

/-- Witness for C9: A. ferrooxidans at its optima with zero dissolved
oxygen still has a strictly positive predicted Cu recovery. -/
theorem recovery_fraction_lower_bound_witness :
    ∃ r, recovery_fraction .ferrooxidans 2.0 30.0 0 "Cu" = some r ∧
      0.6 * (((organisms .ferrooxidans).recovery_max "Cu").getD 0.0)
          * gauss_factor 2.0 (organisms .ferrooxidans).pH_opt
              (organisms .ferrooxidans).pH_sigma
          * gauss_factor 30.0 (organisms .ferrooxidans).T_opt
              (organisms .ferrooxidans).T_sigma ≤ r ∧
      (0 < ((organisms .ferrooxidans).recovery_max "Cu").getD 0.0 → 0 < r) :=
  recovery_fraction_lower_bound .ferrooxidans 2.0 30.0 0 "Cu"

/-! ### Claims about the response primitives -/

/-- C2, counterexample: evaluating the Gaussian response factor with the
non-positive spread `-1` silently produces the value `0`, rather than being
rejected as a validation error, refuting the claim at a concrete input. -/
theorem gauss_factor_neg_sigma_silent_zero : gauss_factor 2.0 2.0 (-1) = 0 := by
  norm_num [gauss_factor]

/-- C2, amended: for every `x` and every optimum, a non-positive spread
makes `gauss_factor` silently return `0.0` through an explicit guard; no
validation error is raised. -/
theorem gauss_factor_nonpos_sigma_zero (x x_opt sigma : ℝ) (h : sigma ≤ 0) :
    gauss_factor x x_opt sigma = 0 := by
  unfold gauss_factor
  rw [if_pos h]
  norm_num

/-- Witness for the amended C2 at spread `0`. -/
theorem gauss_factor_nonpos_sigma_zero_witness : gauss_factor 1 2 0 = 0 :=
  gauss_factor_nonpos_sigma_zero 1 2 0 (by norm_num)

/-- C6: for every positive half-saturation constant `K`, the Monod factor
equals (clamped) concentration ÷ (`K` + clamped concentration); it is `0`
at concentration `0`, exactly `1/2` at concentration `K`, monotonically
increasing in concentration, and comes arbitrarily close to (while staying
below) `1` as the concentration grows. -/
theorem monod_factor_props (K : ℝ) (hK : 0 < K) :
    (∀ O, monod_factor O K
        = some ((if O < 0 then 0.0 else O) / (K + (if O < 0 then 0.0 else O)))) ∧
    monod_factor 0 K = some 0 ∧
    monod_factor K K = some (1 / 2) ∧
    (∀ O1 O2 v1 v2, O1 ≤ O2 → monod_factor O1 K = some v1 →
        monod_factor O2 K = some v2 → v1 ≤ v2) ∧
    (∀ ε, 0 < ε → ∃ O v, monod_factor O K = some v ∧ 1 - ε < v ∧ v < 1) := by
  refine ⟨fun O => monod_factor_of_pos O K hK, ?_, ?_, ?_, ?_⟩
  · rw [monod_factor_of_pos 0 K hK]
    norm_num
  · rw [monod_factor_of_pos K K hK, if_neg (not_lt.mpr hK.le)]
    congr 1
    have hKK : K + K ≠ 0 := by positivity
    field_simp
    ring
  · intro O1 O2 v1 v2 h12 h1 h2
    rw [monod_factor_of_pos O1 K hK] at h1
    rw [monod_factor_of_pos O2 K hK] at h2
    have hc12 : (if O1 < 0 then (0.0:ℝ) else O1) ≤ (if O2 < 0 then 0.0 else O2) := by
      split_ifs <;> linarith
    have hc1 : (0:ℝ) ≤ if O1 < 0 then 0.0 else O1 := by split_ifs <;> norm_num; linarith
    have hc2 : (0:ℝ) ≤ if O2 < 0 then 0.0 else O2 := by split_ifs <;> norm_num; linarith
    set a := if O1 < 0 then (0.0:ℝ) else O1
    set b := if O2 < 0 then (0.0:ℝ) else O2
    have hv1 : v1 = a / (K + a) := by exact (Option.some_inj.mp h1).symm
    have hv2 : v2 = b / (K + b) := by exact (Option.some_inj.mp h2).symm
    rw [hv1, hv2, div_le_div_iff (by linarith) (by linarith)]
    nlinarith
  · intro ε hε
    refine ⟨K / ε, _, monod_factor_of_pos (K / ε) K hK, ?_, monod_val_lt_one _ K hK⟩
    have hO : ¬(K / ε < 0) := not_lt.mpr (by positivity)
    rw [if_neg hO]
    rw [lt_div_iff (by positivity)]
    have h1 : (1 - ε) * (K + K / ε) = K / ε - ε * K + (K - ε * (K / ε)) := by ring
    have h2 : ε * (K / ε) = K := by field_simp
    nlinarith [mul_pos hε hK]

/-- Witness for C6 at `K = 1`: the Monod factor at the half-saturation
point is exactly one half. -/
theorem monod_factor_props_witness : monod_factor 1 1 = some (1 / 2) :=
  (monod_factor_props 1 (by norm_num)).2.2.1

/-- C10: the Monod division is guarded only by the clamp: for positive `K`
the result is always defined and lies in `[0, 1)`; at `K = 0` with clamped
concentration `0` the division-by-zero branch is reached (`none`); and for
any non-negative `K` the computation is total exactly when `K > 0` or the
concentration is positive. -/
theorem monod_factor_totality :
    (∀ O K, 0 < K → ∃ v, monod_factor O K = some v ∧ 0 ≤ v ∧ v < 1) ∧
    monod_factor 0 0 = none ∧
    (∀ O K, 0 ≤ K → ((monod_factor O K).isSome ↔ (0 < K ∨ 0 < O))) := by
  refine ⟨fun O K hK => ⟨_, monod_factor_of_pos O K hK,
      monod_val_nonneg O K hK, monod_val_lt_one O K hK⟩, ?_, ?_⟩
  · unfold monod_factor
    norm_num
  · intro O K hK
    unfold monod_factor
    have hc : (0:ℝ) ≤ if O < 0 then 0.0 else O := by split_ifs <;> norm_num; linarith
    have hiff : (0 < O) ↔ (0 < if O < 0 then (0.0:ℝ) else O) := by
      split_ifs with h
      · constructor
        · intro hp
          linarith
        · intro hp
          norm_num at hp
      · exact Iff.rfl
    constructor
    · intro hs
      by_contra hcon
      push_neg at hcon
      obtain ⟨hK0, hO0⟩ := hcon
      have hKz : K = 0 := le_antisymm hK0 hK
      have hOz : (if O < 0 then (0.0:ℝ) else O) = 0 := by
        split_ifs with h
        · norm_num
        · linarith
      rw [if_pos (by rw [hKz, hOz]; norm_num)] at hs
      simp at hs
    · intro hpos
      have hden : 0 < K + (if O < 0 then 0.0 else O) := by
        rcases hpos with h | h
        · linarith
        · have := hiff.mp h
          linarith
      rw [if_neg (by linarith)]
      simp

/-- Witness for C10: at concentration `3` and half-saturation `1` the
factor is defined and lies in `[0, 1)`. -/
theorem monod_factor_totality_witness :
    ∃ v, monod_factor 3 1 = some v ∧ 0 ≤ v ∧ v < 1 :=
  monod_factor_totality.1 3 1 (by norm_num)

/-! ### Per-method cost/yield rollup (src/EWASTE.py) -/

/-- The `recovery_dict` argument of `evaluate_method`: recovery fraction
per tracked metal. -/
structure RecoveryDict where
  Au : ℚ
  Pd : ℚ
  Cu : ℚ

/-- The record returned by `evaluate_method`. Degenerate divisions that the
source maps to `np.nan` are `none` here. -/
structure MethodResult where
  energy_kwh_per_t : ℚ
  energy_cost_total : ℚ
  chem_cost_per_t : ℚ
  op_cost : ℚ
  capex_per_t : ℚ
  total_cost_per_t : ℚ
  au_rec_kg : ℚ
  pd_rec_kg : ℚ
  cu_rec_kg : ℚ
  total_recovered_mass_kg : ℚ
  cost_per_kg_Au : Option ℚ
  cost_per_kg_Pd : Option ℚ
  cost_per_kg_Cu : Option ℚ
  cost_per_kg_mixture : Option ℚ

/-- Embeds the feed-mass computation `feed_kg = feed_tonnes * 1000.0`;
`<metal>_mass_kg = feed_kg * <metal>_frac`. -/
def metal_mass_kg (feed_tonnes frac : ℚ) : ℚ :=
  feed_tonnes * 1000.0 * frac

/-- Embeds `evaluate_method(name, energy_kwh_per_t, chem_cost_per_t,
recovery_dict, capex_per_t)`. The globals the source closes over
(`au_mass_kg`, `pd_mass_kg`, `cu_mass_kg`, `energy_cost`,
`labor_cost_per_t`, `env_cost_proxy`) are passed explicitly. The body
follows the source line by line:
`energy_cost_total = energy_kwh_per_t * energy_cost`;
`op_cost = energy_cost_total + chem_cost_per_t + labor_cost_per_t + env_cost_proxy`;
`total_cost_per_t = op_cost + capex_per_t`;
`cost_per_kg_mixture = total_cost_per_t / total_recovered_mass_kg` when the
total recovered mass is positive, else the nan sentinel; per-metal
`cost_per_kg[k] = (total_cost_per_t * (val/total_recovered_mass_kg)) / val`
when `val > 0 and total_recovered_mass_kg > 0`, else the nan sentinel. -/
def evaluate_method (au_mass_kg pd_mass_kg cu_mass_kg : ℚ)
    (energy_kwh_per_t chem_cost_per_t : ℚ) (recovery_dict : RecoveryDict)
    (capex_per_t energy_cost labor_cost_per_t env_cost_proxy : ℚ) :
    MethodResult :=
  let au_rec_kg := au_mass_kg * recovery_dict.Au
  let pd_rec_kg := pd_mass_kg * recovery_dict.Pd
  let cu_rec_kg := cu_mass_kg * recovery_dict.Cu
  let energy_cost_total := energy_kwh_per_t * energy_cost
  let op_cost := energy_cost_total + chem_cost_per_t + labor_cost_per_t + env_cost_proxy
  let total_cost_per_t := op_cost + capex_per_t
  let total_recovered_mass_kg := au_rec_kg + pd_rec_kg + cu_rec_kg
  let cost_per_kg_mixture :=
    if total_recovered_mass_kg > 0 then some (total_cost_per_t / total_recovered_mass_kg)
    else none
  let cost_per_kg := fun (val : ℚ) =>
    if val > 0 ∧ total_recovered_mass_kg > 0 then
      some (total_cost_per_t * (val / total_recovered_mass_kg) / val)
    else none
  { energy_kwh_per_t := energy_kwh_per_t
    energy_cost_total := energy_cost_total
    chem_cost_per_t := chem_cost_per_t
    op_cost := op_cost
    capex_per_t := capex_per_t
    total_cost_per_t := total_cost_per_t
    au_rec_kg := au_rec_kg
    pd_rec_kg := pd_rec_kg
    cu_rec_kg := cu_rec_kg
    total_recovered_mass_kg := total_recovered_mass_kg
    cost_per_kg_Au := cost_per_kg au_rec_kg
    cost_per_kg_Pd := cost_per_kg pd_rec_kg
    cost_per_kg_Cu := cost_per_kg cu_rec_kg
    cost_per_kg_mixture := cost_per_kg_mixture }

/-! ### Claims about the cost/yield rollup -/

/-- C3: for all inputs, `evaluate_method` computes the total cost per tonne
as the flat additive sum of energy cost (energy rate × electricity price),
chemical cost, capex, labor cost, and environmental proxy; being a pure
function of its arguments, the same inputs always yield identical
outputs. -/
theorem total_cost_per_t_flat_sum (au_mass_kg pd_mass_kg cu_mass_kg : ℚ)
    (energy_kwh_per_t chem_cost_per_t : ℚ) (recovery_dict : RecoveryDict)
    (capex_per_t energy_cost labor_cost_per_t env_cost_proxy : ℚ) :
    (evaluate_method au_mass_kg pd_mass_kg cu_mass_kg energy_kwh_per_t
        chem_cost_per_t recovery_dict capex_per_t energy_cost
        labor_cost_per_t env_cost_proxy).total_cost_per_t
      = energy_kwh_per_t * energy_cost + chem_cost_per_t + capex_per_t
          + labor_cost_per_t + env_cost_proxy := by
  simp only [evaluate_method]
  ring

/-- C4: whenever a metal's recovered mass and the total recovered mass are
both strictly positive, the per-metal cost-per-kilogram computed by
`evaluate_method` equals total cost per tonne ÷ total recovered mass — the
per-metal weighting cancels algebraically — and therefore equals the
cost-per-kilogram-mixture, the same blended rate for every such metal. -/
theorem cost_per_kg_blended (au_mass_kg pd_mass_kg cu_mass_kg : ℚ)
    (energy_kwh_per_t chem_cost_per_t : ℚ) (recovery_dict : RecoveryDict)
    (capex_per_t energy_cost labor_cost_per_t env_cost_proxy : ℚ)
    (res : MethodResult)
    (hres : res = evaluate_method au_mass_kg pd_mass_kg cu_mass_kg
        energy_kwh_per_t chem_cost_per_t recovery_dict capex_per_t
        energy_cost labor_cost_per_t env_cost_proxy)
    (htot : 0 < res.total_recovered_mass_kg) :
    (0 < res.au_rec_kg →
        res.cost_per_kg_Au = some (res.total_cost_per_t / res.total_recovered_mass_kg) ∧
        res.cost_per_kg_Au = res.cost_per_kg_mixture) ∧
    (0 < res.pd_rec_kg →
        res.cost_per_kg_Pd = some (res.total_cost_per_t / res.total_recovered_mass_kg) ∧
        res.cost_per_kg_Pd = res.cost_per_kg_mixture) ∧
    (0 < res.cu_rec_kg →
        res.cost_per_kg_Cu = some (res.total_cost_per_t / res.total_recovered_mass_kg) ∧
        res.cost_per_kg_Cu = res.cost_per_kg_mixture) := by
  subst hres
  simp only [evaluate_method] at htot ⊢
  refine ⟨fun hv => ?_, fun hv => ?_, fun hv => ?_⟩ <;>
  · rw [if_pos ⟨hv, htot⟩, if_pos htot]
    constructor
    · congr 1
      field_simp
      ring
    · congr 1
      field_simp
      ring

/-- Witness for C4 at the spec's concrete scenario (1 tonne feed, gold
fraction 0.0005, pyro-style rates). -/
theorem cost_per_kg_blended_witness :
    (evaluate_method 0.5 0.2 200 1500 30 ⟨0.95, 0.9, 0.95⟩ 200 0.06 50
        20).cost_per_kg_Au
      = (evaluate_method 0.5 0.2 200 1500 30 ⟨0.95, 0.9, 0.95⟩ 200 0.06 50
          20).cost_per_kg_mixture :=
  ((cost_per_kg_blended 0.5 0.2 200 1500 30 ⟨0.95, 0.9, 0.95⟩ 200 0.06 50 20
      _ rfl (by norm_num [evaluate_method])).1
    (by norm_num [evaluate_method])).2

/-- C5: if every recovery fraction in the profile is 0, then for any
feedstock the total recovered mass is 0 and the cost-per-kilogram-mixture
and every per-metal cost-per-kilogram are the explicit sentinel `none`
(the source's `np.nan`), with no division performed. -/
theorem zero_recovery_gives_sentinel (feed_tonnes au_frac pd_frac cu_frac : ℚ)
    (energy_kwh_per_t chem_cost_per_t : ℚ) (recovery_dict : RecoveryDict)
    (capex_per_t energy_cost labor_cost_per_t env_cost_proxy : ℚ)
    (hAu : recovery_dict.Au = 0) (hPd : recovery_dict.Pd = 0)
    (hCu : recovery_dict.Cu = 0) (res : MethodResult)
    (hres : res = evaluate_method (metal_mass_kg feed_tonnes au_frac)
        (metal_mass_kg feed_tonnes pd_frac) (metal_mass_kg feed_tonnes cu_frac)
        energy_kwh_per_t chem_cost_per_t recovery_dict capex_per_t
        energy_cost labor_cost_per_t env_cost_proxy) :
    res.total_recovered_mass_kg = 0 ∧
    res.cost_per_kg_mixture = none ∧
    res.cost_per_kg_Au = none ∧
    res.cost_per_kg_Pd = none ∧
    res.cost_per_kg_Cu = none := by
  subst hres
  simp [evaluate_method, hAu, hPd, hCu]

/-- Witness for C5 at a concrete feedstock with an all-zero recovery
profile. -/
theorem zero_recovery_gives_sentinel_witness :
    (evaluate_method (metal_mass_kg 1 0.0005) (metal_mass_kg 1 0.0002)
        (metal_mass_kg 1 0.20) 1500 30 ⟨0, 0, 0⟩ 200 0.06 50
        20).cost_per_kg_mixture = none :=
  (zero_recovery_gives_sentinel 1 0.0005 0.0002 0.20 1500 30 ⟨0, 0, 0⟩ 200
      0.06 50 20 rfl rfl rfl _ rfl).2.1

end EWaste
